import Mathlib

/-
Verification of the fireworksbench HTTP load tester.

Shallow embedding of the two core modules:
  * libs/load_tester.py  — the LoadTester pydantic model, its field validator,
    and the worker loop _send_requests (retry loop, result/error recording,
    pacing computation).
  * libs/log_result.py   — the RunStats record and the report_results
    aggregation pipeline (_collect_results, _collect_errors,
    _calculate_error_rate, _calculate_total_time, _calculate_statistics).

Python floats are modelled as rationals (ℚ); Python ints as ℤ/ℕ.  The one
irrational operation in the source, math.sqrt applied at the very end of the
standard-deviation computation, is handled by carrying the exact radicand:
the RunStats field stdevSq below is the square of the source's stdev field
(sqrt is injective and order preserving on the nonnegatives, and sqrt 0 = 0,
so every statement about stdev transfers to one about stdevSq).

Wall-clock time, HTTP responses and exceptions are external inputs of the
worker loop; they are modelled by an oracle assigning to every attempt index
its outcome (a status code with an observed latency, or a raised exception
with its class name, message, and whether the class is a subclass of
aiohttp.ClientError — the class the source's inner except clause catches).
-/

namespace Fireworksbench

/-- The LoadTester pydantic model's configuration fields
(load_tester.py lines 37-51).  The mutable bookkeeping fields
(results, errors, start_time, end_time, total_time) live in LoadState. -/
structure LoadTester where
  url : String
  duration : ℤ
  qps : ℤ
  concurrency : ℤ
  http_method : String
  timeout : ℚ
  retries : ℤ
  output : String
deriving Repr, DecidableEq

/-- _validate_positive (load_tester.py lines 68-73): raises ValueError when
the value is not strictly positive, otherwise returns it. -/
def validatePositive (value : ℤ) : Except String ℤ :=
  if value ≤ 0 then .error "Value must be positive." else .ok value

/-- Construction of a LoadTester.  Pydantic runs the field validator
_validate_positive on exactly the three fields it is declared for —
duration, qps and concurrency (load_tester.py line 68); timeout and retries
have no validator.  Construction succeeds iff no validator raises. -/
def mkLoadTester (url : String) (duration qps concurrency : ℤ)
    (http_method : String) (timeout : ℚ) (retries : ℤ) (output : String) :
    Except String LoadTester := do
  let d ← validatePositive duration
  let q ← validatePositive qps
  let c ← validatePositive concurrency
  pure ⟨url, d, q, c, http_method, timeout, retries, output⟩

/-- Whether an Except-valued construction succeeded. -/
def exceptOk {ε α : Type} : Except ε α → Bool
  | .ok _ => true
  | .error _ => false

/-- The mutable state of a LoadTester instance read and written by
report_results and the workers: the two result-store mappings (Python dicts
of deques, modelled as association lists in insertion order with pairwise
distinct keys) and the three timing fields (load_tester.py lines 52-65). -/
structure LoadState where
  results : List (String × List ℚ)
  errors : List (String × List String)
  start_time : Option ℚ
  end_time : Option ℚ
  total_time : Option ℚ
deriving Repr, DecidableEq

/-- The RunStats namedtuple (log_result.py lines 8-21), field for field and
in the source's field order, except that stdevSq carries the square of the
source's stdev field (the source stores math.sqrt of exactly this value). -/
structure RunStats where
  total_requests : ℕ
  total_time : ℚ
  qps : ℤ
  avg_latency : ℚ
  min_latency : ℚ
  max_latency : ℚ
  amp : ℚ
  stdevSq : ℚ
  qpm : ℤ
deriving Repr, DecidableEq

/-- The field names of the RunStats namedtuple, transcribed from the string
list in its declaration (log_result.py lines 8-21). -/
def runStatsFields : List String :=
  ["total_requests", "total_time", "qps", "avg_latency", "min_latency",
   "max_latency", "amp", "stdev", "qpm"]

/-- Modelled from the spec: the fields the spec's RunStats record demands
(spec section 3, RunStats), each paired with the source field name that
carries that quantity — requests-per-second is the source's qps field and
requests-per-minute its qpm field.  The error-rate row has no source field;
the second component records the name such a field would naturally bear. -/
def specRunStatsConcepts : List (String × String) :=
  [("total completed requests", "total_requests"),
   ("total elapsed seconds", "total_time"),
   ("requests-per-second", "qps"),
   ("average latency", "avg_latency"),
   ("minimum latency", "min_latency"),
   ("maximum latency", "max_latency"),
   ("amplitude", "amp"),
   ("latency standard deviation", "stdev"),
   ("requests-per-minute", "qpm"),
   ("error rate", "error_rate")]

/-- One step of the _collect_results loop body (log_result.py lines 77-81):
accumulator is (total_requests, successful_calls, all_res); an entry with
key "2XX" overwrites successful_calls (assignment, so the last occurrence
wins), every entry extends all_res and total_requests. -/
def collectStep (acc : ℕ × ℕ × List ℚ) (kv : String × List ℚ) :
    ℕ × ℕ × List ℚ :=
  (acc.1 + kv.2.length,
   if kv.1 = "2XX" then kv.2.length else acc.2.1,
   acc.2.2 ++ kv.2)

/-- _collect_results (log_result.py lines 73-82): folds the loop body over
the results mapping in insertion order starting from (0, 0, []). -/
def collectResults (rs : List (String × List ℚ)) : ℕ × ℕ × List ℚ :=
  rs.foldl collectStep (0, 0, [])

/-- _collect_errors (log_result.py lines 84-86): the sum of the lengths of
all error-kind sequences. -/
def collectErrors (es : List (String × List String)) : ℕ :=
  (es.map (fun kv => kv.2.length)).sum

/-- _calculate_error_rate (log_result.py lines 88-90). -/
def calculateErrorRate (total_calls successful_calls : ℕ) : ℚ :=
  if 0 < total_calls then
    ((total_calls : ℚ) - (successful_calls : ℚ)) / (total_calls : ℚ)
  else 0

/-- _calculate_total_time (log_result.py lines 92-96): end - start when both
timestamps are set, 0 otherwise. -/
def calculateTotalTime (s : LoadState) : ℚ :=
  match s.start_time, s.end_time with
  | some a, some b => b - a
  | _, _ => 0

/-- Python truthiness of the Optional[float] field total_time as used in the
guard on log_result.py line 108: None and 0.0 are falsy. -/
def truthy : Option ℚ → Bool
  | none => false
  | some v => if v = 0 then false else true

/-- Python's int() applied to a float/rational quotient truncates toward
zero (log_result.py line 110). -/
def truncQ (x : ℚ) : ℤ :=
  if 0 ≤ x.num then x.num.ediv (x.den : ℤ)
  else - ((- x.num).ediv (x.den : ℤ))

/-- Python's max over a nonempty list (log_result.py line 113): first
element seeded, then pairwise max in order.  The [] case is unreachable
behind the source's length guard. -/
def pyMax : List ℚ → ℚ
  | [] => 0
  | h :: t => t.foldl max h

/-- Python's min over a nonempty list (log_result.py line 114). -/
def pyMin : List ℚ → ℚ
  | [] => 0
  | h :: t => t.foldl min h

/-- _calculate_statistics (log_result.py lines 98-120).  All seven outputs
are 0 unless cum_time is nonzero, all_res is nonempty and total_time is
truthy; inside the guard, rps is the truncated-to-int quotient and rpm is
rps * 60 (both only when total_time is nonzero, which the outer guard
already forces), and the last component is the square of the source's
stdev, i.e. the radicand handed to math.sqrt on lines 116-118 with its
total_requests denominator. -/
def calculateStatistics (total_time : Option ℚ) (all_res : List ℚ)
    (cum_time : ℚ) (total_requests : ℕ) : ℤ × ℤ × ℚ × ℚ × ℚ × ℚ × ℚ :=
  if cum_time ≠ 0 ∧ all_res.length ≠ 0 ∧ truthy total_time = true then
    let tt := total_time.getD 0
    let rps : ℤ := if tt ≠ 0 then truncQ ((all_res.length : ℚ) / tt) else 0
    let rpm : ℤ := rps * 60
    let avg_latency := all_res.sum / (all_res.length : ℚ)
    let max_latency := pyMax all_res
    let min_latency := pyMin all_res
    let amp := pyMax all_res - pyMin all_res
    let stdevSq :=
      (all_res.map (fun x => (x - avg_latency) ^ 2)).sum / (total_requests : ℚ)
    (rps, rpm, avg_latency, min_latency, max_latency, amp, stdevSq)
  else (0, 0, 0, 0, 0, 0, 0)

/-- report_results (log_result.py lines 26-71).  Returns the LoadTester
state as left by the call — the source assigns the computed total time into
load_tester.total_time on line 49 — together with the RunStats value built
on lines 61-71.  The error rate is computed (line 46) and logged (line 58)
but does not appear in the returned RunStats. -/
def reportResults (s : LoadState) : LoadState × RunStats :=
  let c := collectResults s.results
  let total_requests := c.1
  let all_res := c.2.2
  let tt := calculateTotalTime s
  let s2 : LoadState := { s with total_time := some tt }
  let cum_time := all_res.sum
  match calculateStatistics s2.total_time all_res cum_time total_requests with
  | (rps, rpm, avg_latency, min_latency, max_latency, amp, stdevSq) =>
    (s2, ⟨total_requests, tt, rps, avg_latency, min_latency, max_latency,
          amp, stdevSq, rpm⟩)

/-- The error rate as computed inside report_results (log_result.py
lines 39-46): total_calls is completed plus failed, successful_calls the
size of the "2XX" group as harvested by _collect_results. -/
def reportedErrorRate (s : LoadState) : ℚ :=
  let c := collectResults s.results
  calculateErrorRate (c.1 + collectErrors s.errors) c.2.1

/-- total_calls as computed on log_result.py line 45. -/
def totalCallsOf (s : LoadState) : ℕ :=
  (collectResults s.results).1 + collectErrors s.errors

/-- The concatenation, in store insertion order, of the latency sequences of
every status group — the list the spec calls L. -/
def allRes (s : LoadState) : List ℚ := (s.results.map Prod.snd).flatten

/-- Association-list lookup with Python dict semantics over distinct keys:
the value at the key, none when absent. -/
def dictLookup {β : Type} : List (String × β) → String → Option β
  | [], _ => none
  | (k, v) :: rest, key => if k = key then some v else dictLookup rest key

/-- The outcome the environment hands one attempt of the retry loop of
_send_requests (load_tester.py lines 132-155): either a completed HTTP
response carrying its status code and the latency time.time() would measure
at the recording point, or a raised exception carrying its class name, its
message, and whether its class is a subclass of aiohttp.ClientError — the
class the inner except clause on line 149 catches. -/
inductive AttemptOutcome where
  | success (status : ℕ) (latency : ℚ)
  | exc (nm msg : String) (isClientError : Bool)
deriving Repr, DecidableEq

/-- Class name of the exception an attempt raised ("" for a success). -/
def AttemptOutcome.excName : AttemptOutcome → String
  | .success _ _ => ""
  | .exc nm _ _ => nm

/-- Message of the exception an attempt raised ("" for a success). -/
def AttemptOutcome.excMsg : AttemptOutcome → String
  | .success _ _ => ""
  | .exc _ msg _ => msg

/-- Whether the attempt raised an exception of (a subclass of)
aiohttp.ClientError. -/
def AttemptOutcome.isCEFail : AttemptOutcome → Bool
  | .exc _ _ true => true
  | _ => false

/-- Status-group derivation (load_tester.py line 144):
str(status_code // 100) + "XX". -/
def statusGroup (status : ℕ) : String := toString (status / 100) ++ "XX"

/-- What one outer-loop iteration of _send_requests leaves behind:
the (status_group, latency) pairs appended to the results store in order,
the single (error_kind, message) pair appended to the errors store when an
exception escaped the retry loop, the number of attempts issued, and the
number of 1-second backoff sleeps taken (load_tester.py line 155). -/
structure IterOutcome where
  recorded : List (String × ℚ)
  errorRec : Option (String × String)
  attempts : ℕ
  backoffSleeps : ℕ
deriving Repr, DecidableEq

/-- The retry loop of _send_requests (load_tester.py lines 130-157):
for _ in range(retries + 1) with loop index i and fuel = remaining planned
attempts.  A completed response records its result and the loop continues
to the next attempt (the source has no break on the success path).  An
aiohttp.ClientError is re-raised when i equals retries — the outer except
then records the error and ends the iteration — and otherwise costs one
backoff sleep before the next attempt.  Any other exception escapes the
inner except immediately and is recorded by the outer except. -/
def attemptLoop (oracle : ℕ → AttemptOutcome) (retries : ℤ) :
    ℕ → ℕ → List (String × ℚ) → ℕ → ℕ → IterOutcome
  | 0, _, acc, att, slp => ⟨acc.reverse, none, att, slp⟩
  | fuel + 1, i, acc, att, slp =>
    match oracle i with
    | .success status latency =>
        attemptLoop oracle retries fuel (i + 1)
          ((statusGroup status, latency) :: acc) (att + 1) slp
    | .exc nm msg isCE =>
        if isCE then
          if (i : ℤ) = retries then ⟨acc.reverse, some (nm, msg), att + 1, slp⟩
          else attemptLoop oracle retries fuel (i + 1) acc (att + 1) (slp + 1)
        else ⟨acc.reverse, some (nm, msg), att + 1, slp⟩

/-- One outer-loop iteration of _send_requests: the retry loop runs over
range(retries + 1), i.e. (retries + 1).toNat attempts are planned, starting
at index 0 with empty accumulators. -/
def runIteration (retries : ℤ) (oracle : ℕ → AttemptOutcome) : IterOutcome :=
  attemptLoop oracle retries (retries + 1).toNat 0 [] 0 0

/-- Appending one value under a key into a defaultdict-of-deques store
(load_tester.py lines 177 and 189): extend the sequence at the key when
present, else insert the key with a one-element sequence. -/
def appendEntry {β : Type} :
    List (String × List β) → String → β → List (String × List β)
  | [], k, v => [(k, [v])]
  | (k1, vs) :: rest, k, v =>
    if k1 = k then (k1, vs ++ [v]) :: rest
    else (k1, vs) :: appendEntry rest k v

/-- Apply one iteration's outcome to the shared state: _record_result for
each recorded pair in order (load_tester.py lines 166-177), then
_record_error for the escaped exception if any (lines 179-189). -/
def applyIter (s : LoadState) (it : IterOutcome) : LoadState :=
  let s1 : LoadState :=
    { s with results :=
        it.recorded.foldl (fun m kv => appendEntry m kv.1 kv.2) s.results }
  match it.errorRec with
  | none => s1
  | some km => { s1 with errors := appendEntry s1.errors km.1 km.2 }

/-- The deadline loop of _send_requests (load_tester.py lines 127-163):
the wall clock decides how many outer iterations run before the deadline
and what each attempt observes; both are abstracted into the given list of
per-iteration oracles, one entry per executed iteration. -/
def sendRequests (retries : ℤ) (oracles : List (ℕ → AttemptOutcome))
    (s : LoadState) : LoadState :=
  oracles.foldl (fun st o => applyIter st (runIteration retries o)) s

/-- The pacing interval (load_tester.py lines 121-124): 1/qps when qps is
truthy, else 0. -/
def pacingDelay (qps : ℤ) : ℚ := if qps ≠ 0 then 1 / (qps : ℚ) else 0

/-- The end-of-iteration pacing sleep (load_tester.py lines 159-163): sleep
for delay minus elapsed when that remainder is positive, else not at all.
Returns the slept duration. -/
def pacingSleepTime (qps : ℤ) (elapsed : ℚ) : ℚ :=
  let rem := pacingDelay qps - elapsed
  if 0 < rem then rem else 0

/-- Division that signals a Python ZeroDivisionError: none exactly when the
divisor is zero. -/
def cdiv (a b : ℚ) : Option ℚ := if b = 0 then none else some (a / b)

/-- _calculate_error_rate with its single division checked. -/
def calculateErrorRateChecked (total_calls successful_calls : ℕ) : Option ℚ :=
  if 0 < total_calls then
    cdiv ((total_calls : ℚ) - (successful_calls : ℚ)) (total_calls : ℚ)
  else some 0

/-- _calculate_statistics with every division checked: the rps quotient
(line 110), the mean (line 112) and the variance (lines 116-118). -/
def calculateStatisticsChecked (total_time : Option ℚ) (all_res : List ℚ)
    (cum_time : ℚ) (total_requests : ℕ) :
    Option (ℤ × ℤ × ℚ × ℚ × ℚ × ℚ × ℚ) :=
  if cum_time ≠ 0 ∧ all_res.length ≠ 0 ∧ truthy total_time = true then
    let tt := total_time.getD 0
    let rpsO : Option ℤ :=
      if tt ≠ 0 then (cdiv ((all_res.length : ℚ)) tt).map truncQ else some 0
    match rpsO, cdiv all_res.sum ((all_res.length : ℚ)),
        cdiv ((all_res.map
            (fun x => (x - all_res.sum / ((all_res.length : ℚ))) ^ 2)).sum)
          ((total_requests : ℚ)) with
    | some rps, some avg_latency, some stdevSq =>
        some (rps, rps * 60, avg_latency, pyMin all_res, pyMax all_res,
              pyMax all_res - pyMin all_res, stdevSq)
    | _, _, _ => none
  else some (0, 0, 0, 0, 0, 0, 0)

/-- report_results with every division checked: none would mean some
division in the source ran with a zero divisor. -/
def reportResultsChecked (s : LoadState) : Option (LoadState × RunStats) :=
  let c := collectResults s.results
  let total_requests := c.1
  let successful_calls := c.2.1
  let all_res := c.2.2
  let total_calls := total_requests + collectErrors s.errors
  match calculateErrorRateChecked total_calls successful_calls with
  | none => none
  | some _ =>
    let tt := calculateTotalTime s
    let s2 : LoadState := { s with total_time := some tt }
    match calculateStatisticsChecked s2.total_time all_res all_res.sum
        total_requests with
    | none => none
    | some (rps, rpm, avg_latency, min_latency, max_latency, amp, stdevSq) =>
      some (s2, ⟨total_requests, tt, rps, avg_latency, min_latency,
                 max_latency, amp, stdevSq, rpm⟩)

/-- Scenario A of the spec (section 8) and of test_report_results
(tests/libs/test_load_tester.py lines 134-156). -/
def scenarioA : LoadState :=
  { results := [("2XX", [1/10, 2/10, 3/10]), ("4XX", [2/5, 1/2])],
    errors := [("ValueError", ["x"])],
    start_time := some 1, end_time := some 6, total_time := none }

/-- A store identical to scenario A but with no errors and a 2-second run:
5 latency samples over total_time 2, whose requests-per-second quotient
5/2 is not an integer. -/
def stateC5a : LoadState :=
  { results := [("2XX", [1/10, 2/10, 3/10]), ("4XX", [2/5, 1/2])],
    errors := [],
    start_time := some 0, end_time := some 2, total_time := none }

/-- The same store with coinciding start and end timestamps, so that the
computed total time is 0 while the latency list is nonempty. -/
def stateC5b : LoadState :=
  { results := [("2XX", [1/10, 2/10, 3/10]), ("4XX", [2/5, 1/2])],
    errors := [],
    start_time := some 3, end_time := some 3, total_time := none }

/-- A state with empty stores and unset timestamps. -/
def emptyState : LoadState :=
  { results := [], errors := [], start_time := none, end_time := none,
    total_time := none }

/-- An environment in which both attempts of an iteration complete with
HTTP 200 (latencies 1/10 and 1/5 at their recording points). -/
def oracleTwoSuccess : ℕ → AttemptOutcome := fun i =>
  if i = 0 then .success 200 (1/10) else .success 200 (1/5)

/-- An environment in which the first attempt completes with HTTP 200 and
every later attempt raises an aiohttp.ClientError. -/
def oracleSuccThenFail : ℕ → AttemptOutcome := fun i =>
  if i = 0 then .success 200 (1/10)
  else .exc "ClientConnectorError" "connection refused" true

/-- An environment in which every attempt hits the per-request timeout:
aiohttp raises asyncio.TimeoutError on expiry of the total timeout, and
asyncio.TimeoutError is not a subclass of aiohttp.ClientError. -/
def oracleTimeout : ℕ → AttemptOutcome :=
  fun _ => .exc "TimeoutError" "request timed out" false

/-- An environment in which every attempt raises a connection-level
aiohttp.ClientError. -/
def oracleAllCE : ℕ → AttemptOutcome :=
  fun _ => .exc "ClientConnectionError" "connection reset" true

end Fireworksbench

namespace Fireworksbench

theorem statusGroup_200 : statusGroup 200 = "2XX" := rfl

theorem collect_foldl (rs : List (String × List ℚ)) (a b : ℕ) (c : List ℚ) :
    rs.foldl collectStep (a, b, c) =
      (a + (rs.map (fun kv => kv.2.length)).sum,
       rs.foldl (fun x kv => if kv.1 = "2XX" then kv.2.length else x) b,
       c ++ (rs.map Prod.snd).flatten) := by
  induction rs generalizing a b c with
  | nil => simp
  | cons hd tl ih =>
      simp [List.foldl_cons, collectStep, ih, Nat.add_assoc, List.append_assoc]

theorem collectResults_fst (rs : List (String × List ℚ)) :
    (collectResults rs).1 = (rs.map (fun kv => kv.2.length)).sum := by
  simp [collectResults, collect_foldl]

theorem collectResults_allRes (rs : List (String × List ℚ)) :
    (collectResults rs).2.2 = (rs.map Prod.snd).flatten := by
  simp [collectResults, collect_foldl]

theorem collectResults_len (rs : List (String × List ℚ)) :
    (collectResults rs).1 = ((rs.map Prod.snd).flatten).length := by
  rw [collectResults_fst, List.length_flatten, List.map_map]
  rfl

theorem succFold_not_mem (rs : List (String × List ℚ)) (b : ℕ)
    (h : "2XX" ∉ rs.map Prod.fst) :
    rs.foldl (fun x kv => if kv.1 = "2XX" then kv.2.length else x) b = b := by
  induction rs generalizing b with
  | nil => rfl
  | cons hd tl ih =>
      simp only [List.map_cons, List.mem_cons, not_or] at h
      rw [List.foldl_cons, if_neg (fun hh => h.1 hh.symm), ih _ h.2]

theorem succFold_lookup (rs : List (String × List ℚ)) (b : ℕ)
    (h : (rs.map Prod.fst).Nodup) :
    rs.foldl (fun x kv => if kv.1 = "2XX" then kv.2.length else x) b =
      match dictLookup rs "2XX" with
      | some vs => vs.length
      | none => b := by
  induction rs generalizing b with
  | nil => rfl
  | cons hd tl ih =>
      obtain ⟨k, vs⟩ := hd
      simp only [List.map_cons, List.nodup_cons] at h
      by_cases hk : k = "2XX"
      · subst hk
        simp only [List.foldl_cons, if_pos rfl, dictLookup, if_pos rfl]
        exact succFold_not_mem tl _ h.1
      · simp only [List.foldl_cons, if_neg hk, dictLookup, if_neg hk]
        exact ih _ h.2

theorem collectResults_succ (rs : List (String × List ℚ))
    (h : (rs.map Prod.fst).Nodup) :
    (collectResults rs).2.1 = ((dictLookup rs "2XX").getD []).length := by
  rw [collectResults, collect_foldl, succFold_lookup rs 0 h]
  cases dictLookup rs "2XX" <;> rfl

theorem foldl_min_le_init (l : List ℚ) (a : ℚ) : l.foldl min a ≤ a := by
  induction l generalizing a with
  | nil => exact le_refl a
  | cons h t ih => exact le_trans (ih (min a h)) (min_le_left a h)

theorem foldl_min_le_mem (l : List ℚ) (a x : ℚ) (hx : x ∈ l) :
    l.foldl min a ≤ x := by
  induction l generalizing a with
  | nil => cases hx
  | cons h t ih =>
      rcases List.mem_cons.mp hx with rfl | hx2
      · exact le_trans (foldl_min_le_init t (min a x)) (min_le_right a x)
      · exact ih (min a h) hx2

theorem foldl_min_mem (l : List ℚ) (a : ℚ) :
    l.foldl min a = a ∨ l.foldl min a ∈ l := by
  induction l generalizing a with
  | nil => exact Or.inl rfl
  | cons h t ih =>
      rcases ih (min a h) with h1 | h1
      · rcases le_total a h with hc | hc
        · exact Or.inl (by rw [List.foldl_cons, h1, min_eq_left hc])
        · exact Or.inr (List.mem_cons.mpr (Or.inl
            (by rw [List.foldl_cons, h1, min_eq_right hc])))
      · exact Or.inr (List.mem_cons.mpr (Or.inr h1))

theorem init_le_foldl_max (l : List ℚ) (a : ℚ) : a ≤ l.foldl max a := by
  induction l generalizing a with
  | nil => exact le_refl a
  | cons h t ih => exact le_trans (le_max_left a h) (ih (max a h))

theorem mem_le_foldl_max (l : List ℚ) (a x : ℚ) (hx : x ∈ l) :
    x ≤ l.foldl max a := by
  induction l generalizing a with
  | nil => cases hx
  | cons h t ih =>
      rcases List.mem_cons.mp hx with rfl | hx2
      · exact le_trans (le_max_right a x) (init_le_foldl_max t (max a x))
      · exact ih (max a h) hx2

theorem foldl_max_mem (l : List ℚ) (a : ℚ) :
    l.foldl max a = a ∨ l.foldl max a ∈ l := by
  induction l generalizing a with
  | nil => exact Or.inl rfl
  | cons h t ih =>
      rcases ih (max a h) with h1 | h1
      · rcases le_total a h with hc | hc
        · exact Or.inr (List.mem_cons.mpr (Or.inl
            (by rw [List.foldl_cons, h1, max_eq_right hc])))
        · exact Or.inl (by rw [List.foldl_cons, h1, max_eq_left hc])
      · exact Or.inr (List.mem_cons.mpr (Or.inr h1))

theorem pyMin_mem (l : List ℚ) (h : l ≠ []) : pyMin l ∈ l := by
  cases l with
  | nil => exact absurd rfl h
  | cons hd tl =>
      rcases foldl_min_mem tl hd with h1 | h1
      · exact List.mem_cons.mpr (Or.inl (by simpa [pyMin] using h1))
      · exact List.mem_cons.mpr (Or.inr (by simpa [pyMin] using h1))

theorem pyMin_le (l : List ℚ) (x : ℚ) (hx : x ∈ l) : pyMin l ≤ x := by
  cases l with
  | nil => cases hx
  | cons hd tl =>
      rcases List.mem_cons.mp hx with rfl | hx2
      · simpa [pyMin] using foldl_min_le_init tl x
      · simpa [pyMin] using foldl_min_le_mem tl hd x hx2

theorem pyMax_mem (l : List ℚ) (h : l ≠ []) : pyMax l ∈ l := by
  cases l with
  | nil => exact absurd rfl h
  | cons hd tl =>
      rcases foldl_max_mem tl hd with h1 | h1
      · exact List.mem_cons.mpr (Or.inl (by simpa [pyMax] using h1))
      · exact List.mem_cons.mpr (Or.inr (by simpa [pyMax] using h1))

theorem le_pyMax (l : List ℚ) (x : ℚ) (hx : x ∈ l) : x ≤ pyMax l := by
  cases l with
  | nil => cases hx
  | cons hd tl =>
      rcases List.mem_cons.mp hx with rfl | hx2
      · simpa [pyMax] using init_le_foldl_max tl x
      · simpa [pyMax] using mem_le_foldl_max tl hd x hx2

theorem reportResults_snd (s : LoadState) :
    (reportResults s).2 =
      match calculateStatistics (some (calculateTotalTime s)) (allRes s)
          (allRes s).sum (allRes s).length with
      | (rps, rpm, avg_latency, min_latency, max_latency, amp, stdevSq) =>
        ⟨(allRes s).length, calculateTotalTime s, rps, avg_latency,
         min_latency, max_latency, amp, stdevSq, rpm⟩ := by
  simp only [reportResults, collectResults_len, collectResults_allRes, allRes]

theorem reportResults_fst (s : LoadState) :
    (reportResults s).1 = { s with total_time := some (calculateTotalTime s) } := by
  unfold reportResults
  rcases calculateStatistics (some (calculateTotalTime s))
      (collectResults s.results).2.2 (collectResults s.results).2.2.sum
      (collectResults s.results).1 with ⟨rps, rpm, avg, mn, mx, amp, sd⟩
  rfl

end Fireworksbench

namespace Fireworksbench

/-- C1: the claim states that a successful response ends the attempt loop
and exactly one terminal outcome is recorded per outer-loop iteration.  The
source's success path has no break (load_tester.py lines 135-147), so the
code contradicts this: with retries = 1 and both attempts completing with
HTTP 200, one iteration records two results; with a success followed by an
aiohttp.ClientError on the final attempt, one iteration records both a
result and an error. -/
theorem C1_eval :
    runIteration 1 oracleTwoSuccess =
      ⟨[("2XX", 1/10), ("2XX", 1/5)], none, 2, 0⟩ ∧
    runIteration 1 oracleSuccThenFail =
      ⟨[("2XX", 1/10)],
       some ("ClientConnectorError", "connection refused"), 2, 0⟩ := by
  constructor
  · show attemptLoop oracleTwoSuccess 1 2 0 [] 0 0 = _
    simp [attemptLoop, oracleTwoSuccess, statusGroup_200]
  · show attemptLoop oracleSuccThenFail 1 2 0 [] 0 0 = _
    simp [attemptLoop, oracleSuccThenFail, statusGroup_200]

/-- C2 counterexample: the claim states construction fails whenever
timeout <= 0, but pydantic runs _validate_positive only on duration, qps
and concurrency, so construction with timeout = -1 or timeout = 0 (all
other fields valid) succeeds. -/
theorem C2_counterexample :
    exceptOk (mkLoadTester "http://example.com" 60 10 10 "GET" (-1) 3
      "fireworksbench_results.log") = true ∧
    exceptOk (mkLoadTester "http://example.com" 60 10 10 "GET" 0 3
      "fireworksbench_results.log") = true := by
  constructor <;> rfl

/-- C2 amended: constructing a LoadTester fails before any request is
issued iff duration, qps or concurrency is not strictly positive — in
particular duration = -1, qps = 0 or concurrency = 0 each fail — and
succeeds whenever those three are strictly positive, regardless of the
timeout (and retries) values, which no validator checks. -/
theorem C2_amended (url : String) (d q c : ℤ) (m : String) (t : ℚ)
    (r : ℤ) (o : String) :
    exceptOk (mkLoadTester url d q c m t r o) = true ↔
      0 < d ∧ 0 < q ∧ 0 < c := by
  unfold mkLoadTester validatePositive
  by_cases hd : d ≤ 0 <;> by_cases hq : q ≤ 0 <;> by_cases hc : c ≤ 0 <;>
    simp only [hd, hq, hc, if_true, if_false, reduceIte, exceptOk,
      Except.instMonad, Except.bind, Except.pure, bind, pure]
  all_goals simp only [Bool.false_eq_true, false_iff, eq_self_iff_true, true_iff]
  all_goals omega


/-- C3 counterexample: the RunStats namedtuple's nine declared fields are
exactly the source-field counterparts of the spec's nine non-error-rate
quantities; no field named error_rate (nor any tenth field) exists, so the
returned record does not contain the error rate. -/
theorem C3_counterexample :
    (specRunStatsConcepts.filter (fun c => c.1 ≠ "error rate")).map
        Prod.snd = runStatsFields ∧
    "error_rate" ∉ runStatsFields ∧ runStatsFields.length = 9 := by
  refine ⟨by decide, ?_, rfl⟩
  decide

/-- C3 amended: the RunStats value returned by report_results carries every
field of the spec's RunStats record except the error rate: its nine fields
are exactly the counterparts of the spec's other nine quantities, while the
error rate is computed inside report_results (and logged) but has no field
in the returned record — on scenario A it is 1/2, carried by no RunStats
field dedicated to it. -/
theorem C3_amended :
    ((specRunStatsConcepts.filter (fun c => c.1 ≠ "error rate")).map
        Prod.snd = runStatsFields ∧
     "error_rate" ∉ runStatsFields) ∧
    reportedErrorRate scenarioA = 1/2 ∧
    (reportResults scenarioA).2 =
      ⟨5, 5, 1, 3/10, 1/10, 1/2, 2/5, 1/50, 60⟩ := by
  refine ⟨⟨by decide, by decide⟩, ?_, ?_⟩
  · simp [reportedErrorRate, collectResults, collectStep, collectErrors,
      calculateErrorRate, scenarioA]
    norm_num
  · simp [reportResults, collectResults, collectStep, calculateTotalTime,
      calculateStatistics, truthy, pyMax, pyMin, scenarioA]
    norm_num [truncQ]

/-- C6: on the concrete scenario A store, report_results returns
total_requests = 5, total_time = 5, rps = 1, rpm = 60, avg = 3/10,
min = 1/10, max = 1/2, amp = 2/5 and a standard deviation of sqrt(1/50)
(the stdevSq field carries the radicand 1/50 = 0.02); the radicand is the
squared-deviation sum divided by total_requests = 5, and differs from the
sample-style |L| - 1 = 4 denominator variant. -/
theorem C6_scenarioA :
    (reportResults scenarioA).2 = ⟨5, 5, 1, 3/10, 1/10, 1/2, 2/5, 1/50, 60⟩ ∧
    (1 : ℚ)/50 = ((1/10 - 3/10)^2 + (2/10 - 3/10)^2 + (3/10 - 3/10)^2 +
      (2/5 - 3/10)^2 + (1/2 - 3/10)^2) / 5 ∧
    (1 : ℚ)/50 ≠ ((1/10 - 3/10)^2 + (2/10 - 3/10)^2 + (3/10 - 3/10)^2 +
      (2/5 - 3/10)^2 + (1/2 - 3/10)^2) / (5 - 1) := by
  refine ⟨?_, by norm_num, by norm_num⟩
  simp [reportResults, collectResults, collectStep, calculateTotalTime,
    calculateStatistics, truthy, pyMax, pyMin, scenarioA]
  norm_num [truncQ]

/-- C9 counterexample: report_results does mutate the LoadTester beyond
logging — it writes the computed total time into the total_time attribute
(log_result.py line 49): on scenario A, whose total_time starts unset, the
state after the call differs from the state before it. -/
theorem C9_counterexample :
    (reportResults scenarioA).1 ≠ scenarioA ∧
    (reportResults scenarioA).1.total_time = some 5 ∧
    scenarioA.total_time = none := by
  refine ⟨?_, ?_, rfl⟩
  · rw [reportResults_fst]
    intro h
    have h2 := congrArg LoadState.total_time h
    norm_num [scenarioA, calculateTotalTime] at h2
    exact Option.noConfusion h2
  · rw [reportResults_fst]
    norm_num [scenarioA, calculateTotalTime]

/-- C9 amended: report_results leaves the results and errors mappings and
the start/end timestamps unchanged; its only effect on the LoadTester state
is writing end - start (0 when either timestamp is unset) into total_time;
and the returned RunStats is a pure function of the results, errors and the
two timestamps alone. -/
theorem C9_amended :
    (∀ s : LoadState,
      (reportResults s).1.results = s.results ∧
      (reportResults s).1.errors = s.errors ∧
      (reportResults s).1.start_time = s.start_time ∧
      (reportResults s).1.end_time = s.end_time ∧
      (reportResults s).1.total_time = some (calculateTotalTime s)) ∧
    (∀ s t : LoadState, s.results = t.results → s.errors = t.errors →
      s.start_time = t.start_time → s.end_time = t.end_time →
      (reportResults s).2 = (reportResults t).2) := by
  constructor
  · intro s
    rw [reportResults_fst]
    exact ⟨rfl, rfl, rfl, rfl, rfl⟩
  · intro s t h1 h2 h3 h4
    obtain ⟨r1, e1, a1, b1, tt1⟩ := s
    obtain ⟨r2, e2, a2, b2, tt2⟩ := t
    simp only at h1 h2 h3 h4
    subst h1; subst h2; subst h3; subst h4
    rfl

/-- C10: a negative retries value passes construction (no validator checks
retries), and then range(retries + 1) is empty, so each outer-loop
iteration issues zero attempts and records neither a result nor an error;
the deadline loop still runs (any number of iterations leaves the store
exactly unchanged) and the end-of-iteration pacing sleep still operates
(it suspends whenever the iteration finished faster than the 1/qps pacing
interval). -/
theorem C10_negativeRetries : ∀ r : ℤ, r < 0 →
    exceptOk (mkLoadTester "http://example.com" 60 10 10 "GET" 10 r
      "fireworksbench_results.log") = true ∧
    (∀ oracle, runIteration r oracle = ⟨[], none, 0, 0⟩) ∧
    (∀ oracles s, sendRequests r oracles s = s) ∧
    (∀ (q : ℤ) (e : ℚ), 0 < q → e < pacingDelay q →
      pacingSleepTime q e = pacingDelay q - e ∧ 0 < pacingSleepTime q e) := by
  intro r hr
  have htoNat : (r + 1).toNat = 0 := by omega
  have hiter : ∀ oracle, runIteration r oracle = ⟨[], none, 0, 0⟩ := by
    intro oracle
    unfold runIteration
    rw [htoNat]
    rfl
  refine ⟨rfl, hiter, ?_, ?_⟩
  · intro oracles s
    induction oracles generalizing s with
    | nil => rfl
    | cons o os ih =>
        show sendRequests r (o :: os) s = s
        unfold sendRequests
        rw [List.foldl_cons, hiter o]
        show sendRequests r os (applyIter s ⟨[], none, 0, 0⟩) = s
        have happ : applyIter s ⟨[], none, 0, 0⟩ = s := rfl
        rw [happ]
        exact ih s
  · intro q e hq he
    have hrem : 0 < pacingDelay q - e := sub_pos.mpr he
    constructor
    · simp [pacingSleepTime, hrem]
    · simp [pacingSleepTime, hrem]

theorem attemptLoop_allCE (oracle : ℕ → AttemptOutcome) (r : ℕ)
    (h : ∀ j, j ≤ r → (oracle j).isCEFail = true) :
    ∀ (fuel i : ℕ) (acc : List (String × ℚ)) (att slp : ℕ),
      i + fuel = r + 1 → 0 < fuel →
      attemptLoop oracle (r : ℤ) fuel i acc att slp =
        ⟨acc.reverse, some ((oracle r).excName, (oracle r).excMsg),
         att + fuel, slp + (fuel - 1)⟩ := by
  intro fuel
  induction fuel with
  | zero => intro i acc att slp hsum hpos; exact absurd hpos (lt_irrefl 0)
  | succ n ih =>
      intro i acc att slp hsum hpos
      have hir : i ≤ r := by omega
      have hce := h i hir
      cases ho : oracle i with
      | success st lat => rw [ho] at hce; exact Bool.noConfusion hce
      | exc nm ms isCE =>
          rw [ho] at hce
          cases isCE with
          | false => exact Bool.noConfusion hce
          | true =>
              by_cases hi : (i : ℤ) = (r : ℤ)
              · have hieq : i = r := by exact_mod_cast hi
                subst hieq
                have hn : n = 0 := by omega
                subst hn
                simp [attemptLoop, ho, AttemptOutcome.excName,
                  AttemptOutcome.excMsg]
              · have hn : 0 < n := by
                  have hlt : i < r := by
                    rcases Nat.lt_or_ge i r with hlt | hge
                    · exact hlt
                    · exact absurd
                        (congrArg Int.ofNat (Nat.le_antisymm hir hge)) hi
                  omega
                rw [show attemptLoop oracle (r : ℤ) (n + 1) i acc att slp =
                    attemptLoop oracle (r : ℤ) n (i + 1) acc (att + 1)
                      (slp + 1) by simp [attemptLoop, ho, hi],
                  ih (i + 1) acc (att + 1) (slp + 1) (by omega) hn]
                simp only [IterOutcome.mk.injEq, eq_self_iff_true,
                  true_and]
                constructor <;> omega

/-- C4 counterexample: the claim states that with retries = 3 an iteration
whose every attempt raises a transient transport error — explicitly
including the per-request timeout — makes exactly 4 attempts.  A timeout
raises asyncio.TimeoutError, which is not a subclass of the
aiohttp.ClientError that the inner except on load_tester.py line 149
catches, so the timeout escapes the retry loop on the first attempt: the
iteration makes exactly 1 attempt, not 3 + 1 = 4. -/
theorem C4_counterexample :
    runIteration 3 oracleTimeout =
      ⟨[], some ("TimeoutError", "request timed out"), 1, 0⟩ ∧
    (1 : ℕ) ≠ 3 + 1 := by
  refine ⟨?_, by norm_num⟩
  show attemptLoop oracleTimeout 3 4 0 [] 0 0 = _
  simp [attemptLoop, oracleTimeout]

/-- C4 amended: an iteration whose attempts all raise exceptions of class
aiohttp.ClientError (connection errors) makes exactly retries + 1 attempts
with a fixed 1-time-unit backoff between consecutive failed attempts
(retries backoff sleeps in all), then records exactly one errors-store
entry and nothing in results; but a per-request timeout is not retried the
same way: aiohttp raises asyncio.TimeoutError, which is not a subclass of
the aiohttp.ClientError the inner except catches (load_tester.py line 149),
so an iteration whose first attempt times out makes exactly one attempt,
takes no backoff sleep, and records exactly one errors-store entry. -/
theorem C4_amended :
    (∀ (r : ℕ) (oracle : ℕ → AttemptOutcome),
      (∀ j, j ≤ r → (oracle j).isCEFail = true) →
      runIteration (r : ℤ) oracle =
        ⟨[], some ((oracle r).excName, (oracle r).excMsg), r + 1, r⟩) ∧
    (∀ (r : ℤ) (oracle : ℕ → AttemptOutcome) (nm ms : String),
      0 ≤ r → oracle 0 = .exc nm ms false →
      runIteration r oracle = ⟨[], some (nm, ms), 1, 0⟩) := by
  constructor
  · intro r oracle h
    have h1 : ((r : ℤ) + 1).toNat = r + 1 := by omega
    unfold runIteration
    rw [h1, attemptLoop_allCE oracle r h (r + 1) 0 [] 0 0 (by omega)
      (by omega)]
    simp
  · intro r oracle nm ms hr ho
    have h1 : (r + 1).toNat = r.toNat + 1 := by omega
    unfold runIteration
    rw [h1]
    simp [attemptLoop, ho]

/-- C4 witness: with retries = 3 and every attempt raising a connection
reset (an aiohttp.ClientError), the iteration makes exactly 4 attempts,
sleeps 3 backoffs and records one error entry; with every attempt timing
out (asyncio.TimeoutError, not a ClientError), it makes 1 attempt and
records one error entry. -/
theorem C4_witness :
    runIteration 3 oracleAllCE =
      ⟨[], some ("ClientConnectionError", "connection reset"), 4, 3⟩ ∧
    runIteration 3 oracleTimeout =
      ⟨[], some ("TimeoutError", "request timed out"), 1, 0⟩ := by
  constructor
  · have h := C4_amended.1 3 oracleAllCE (fun j _ => rfl)
    simpa [oracleAllCE, AttemptOutcome.excName, AttemptOutcome.excMsg]
      using h
  · exact C4_amended.2 3 oracleTimeout "TimeoutError" "request timed out"
      (by norm_num) rfl

/-- C5 counterexample: with 5 latency samples and total_time = 2, the
source computes rps = int(5 / 2) = 2 (log_result.py line 110), not the
exact quotient 5/2 the claim states; and with total_time = 0 the whole
statistics block is skipped (the truthiness guard on line 108), so
avg_latency is reported 0, not mean(L) = 3/10 as the claim states. -/
theorem C5_counterexample :
    ((reportResults stateC5a).2.qps = 2 ∧ ((2 : ℚ) ≠ 5 / 2)) ∧
    ((reportResults stateC5b).2.avg_latency = 0 ∧ ((0 : ℚ) ≠ 3 / 10)) := by
  refine ⟨⟨?_, by norm_num⟩, ⟨?_, by norm_num⟩⟩
  · simp [reportResults, collectResults, collectStep, calculateTotalTime,
      calculateStatistics, truthy, pyMax, pyMin, stateC5a]
    norm_num [truncQ]
  · simp [reportResults, collectResults, collectStep, calculateTotalTime,
      calculateStatistics, truthy, pyMax, pyMin, stateC5b]

/-- C5 amended: whenever the concatenated latency list L is nonempty with
nonzero sum and the computed total time (end - start) is nonzero,
report_results produces rps = int(|L| / total_time) — the quotient
truncated toward zero, not the exact quotient — rpm = rps × 60,
avg = mean(L), min and max attained over L, and amplitude = max - min;
when the computed total time is 0 (or either timestamp is unset), the
statistics block is skipped entirely and rps, rpm, avg, min, max and
amplitude are all reported as 0. -/
theorem C5_amended (s : LoadState) (hne : allRes s ≠ [])
    (hsum : (allRes s).sum ≠ 0) :
    (∀ a b : ℚ, s.start_time = some a → s.end_time = some b → b - a ≠ 0 →
      (reportResults s).2.qps = truncQ (((allRes s).length : ℚ) / (b - a)) ∧
      (reportResults s).2.qpm = (reportResults s).2.qps * 60 ∧
      (reportResults s).2.avg_latency =
        (allRes s).sum / ((allRes s).length : ℚ) ∧
      ((reportResults s).2.min_latency ∈ allRes s ∧
        ∀ x ∈ allRes s, (reportResults s).2.min_latency ≤ x) ∧
      ((reportResults s).2.max_latency ∈ allRes s ∧
        ∀ x ∈ allRes s, x ≤ (reportResults s).2.max_latency) ∧
      (reportResults s).2.amp =
        (reportResults s).2.max_latency - (reportResults s).2.min_latency) ∧
    (calculateTotalTime s = 0 →
      (reportResults s).2.qps = 0 ∧ (reportResults s).2.qpm = 0 ∧
      (reportResults s).2.avg_latency = 0 ∧
      (reportResults s).2.min_latency = 0 ∧
      (reportResults s).2.max_latency = 0 ∧ (reportResults s).2.amp = 0) := by
  have hlen : (allRes s).length ≠ 0 := fun h => hne (List.length_eq_zero.mp h)
  constructor
  · intro a b ha hb hab
    have htt : calculateTotalTime s = b - a := by
      unfold calculateTotalTime
      rw [ha, hb]
    have htruthy : truthy (some (calculateTotalTime s)) = true := by
      rw [htt]
      simp [truthy, hab]
    rw [reportResults_snd s]
    unfold calculateStatistics
    rw [if_pos ⟨hsum, hlen, htruthy⟩]
    simp only [Option.getD_some, htt]
    rw [if_pos hab]
    simp only [eq_self_iff_true, true_and, and_true]
    exact ⟨⟨pyMin_mem _ hne, fun x hx => pyMin_le _ x hx⟩,
           ⟨pyMax_mem _ hne, fun x hx => le_pyMax _ x hx⟩⟩
  · intro h0
    have hfalse : truthy (some (calculateTotalTime s)) = false := by
      rw [h0]
      simp [truthy]
    rw [reportResults_snd s]
    unfold calculateStatistics
    rw [if_neg (by simp [hfalse])]
    exact ⟨rfl, rfl, rfl, rfl, rfl, rfl⟩

/-- C5 witness: on the concrete 5-sample store with total_time = 2, the
amended statement instantiates to rps = int(5/2) and avg = mean. -/
theorem C5_witness :
    (reportResults stateC5a).2.qps =
      truncQ (((allRes stateC5a).length : ℚ) / (2 - 0)) ∧
    (reportResults stateC5a).2.avg_latency =
      (allRes stateC5a).sum / ((allRes stateC5a).length : ℚ) := by
  have h := C5_amended stateC5a (by simp [allRes, stateC5a])
    (by norm_num [allRes, stateC5a])
  have h2 := h.1 0 2 rfl rfl (by norm_num)
  exact ⟨h2.1, h2.2.2.1⟩

/-- C7: for every store state (keys of the results dict are distinct), the
error rate computed by report_results equals
(total_calls - successful_calls) / total_calls when total_calls > 0 and 0
otherwise, with total_calls the sum of all results-group lengths plus the
sum of all error-kind sequence lengths, and successful_calls the length of
the "2XX" group (0 when absent) — every 4XX/5XX response and every hard
error counts toward the rate. -/
theorem C7_errorRate (s : LoadState) (h : (s.results.map Prod.fst).Nodup) :
    reportedErrorRate s =
      (let total_calls := (s.results.map (fun kv => kv.2.length)).sum +
        (s.errors.map (fun kv => kv.2.length)).sum
       let successful_calls := ((dictLookup s.results "2XX").getD []).length
       if 0 < total_calls then
         ((total_calls : ℚ) - (successful_calls : ℚ)) / (total_calls : ℚ)
       else 0) := by
  simp only [reportedErrorRate, collectErrors]
  rw [collectResults_fst, collectResults_succ s.results h]
  rfl

/-- C7 witness: on scenario A (keys are distinct), the rate is
(6 - 3) / 6 = 1/2: 3 successes out of 6 total calls (5 completed plus 1
hard error). -/
theorem C7_witness :
    (scenarioA.results.map Prod.fst).Nodup ∧
    reportedErrorRate scenarioA = 1/2 := by
  refine ⟨by decide, ?_⟩
  rw [C7_errorRate scenarioA (by decide)]
  norm_num [scenarioA, dictLookup]

theorem calculateErrorRateChecked_eq (tc sc : ℕ) :
    calculateErrorRateChecked tc sc = some (calculateErrorRate tc sc) := by
  unfold calculateErrorRateChecked calculateErrorRate
  by_cases h : 0 < tc
  · rw [if_pos h, if_pos h]
    unfold cdiv
    rw [if_neg (by exact_mod_cast Nat.pos_iff_ne_zero.mp h)]
  · rw [if_neg h, if_neg h]

theorem calculateStatisticsChecked_eq (tt : Option ℚ) (ar : List ℚ)
    (ct : ℚ) (tr : ℕ) (htr : tr = ar.length) :
    calculateStatisticsChecked tt ar ct tr =
      some (calculateStatistics tt ar ct tr) := by
  unfold calculateStatisticsChecked calculateStatistics
  by_cases hg : ct ≠ 0 ∧ ar.length ≠ 0 ∧ truthy tt = true
  · rw [if_pos hg, if_pos hg]
    have hlen : ((ar.length : ℚ)) ≠ 0 := by exact_mod_cast hg.2.1
    have htrq : ((tr : ℚ)) ≠ 0 := by rw [htr]; exact hlen
    have htt0 : tt.getD 0 ≠ 0 := by
      rcases tt with _ | v
      · simp [truthy] at hg
      · simp only [Option.getD_some]
        intro hv
        simp [truthy, hv] at hg
    simp [cdiv, htt0, hlen, htrq]
  · rw [if_neg hg, if_neg hg]

/-- C8: report_results never divides by zero — the checked evaluator, which
signals every division whose divisor is zero, returns exactly the plain
result on every store state — and the degenerate cases are defined results:
with the concatenated latency list empty or summing to 0, all latency
statistics and rps/rpm are 0, and with zero total calls the error rate
is 0. -/
theorem C8_safety :
    (∀ s : LoadState, reportResultsChecked s = some (reportResults s)) ∧
    (∀ s : LoadState, (allRes s = [] ∨ (allRes s).sum = 0) →
      (reportResults s).2.qps = 0 ∧ (reportResults s).2.qpm = 0 ∧
      (reportResults s).2.avg_latency = 0 ∧
      (reportResults s).2.min_latency = 0 ∧
      (reportResults s).2.max_latency = 0 ∧
      (reportResults s).2.amp = 0 ∧ (reportResults s).2.stdevSq = 0) ∧
    (∀ s : LoadState, totalCallsOf s = 0 → reportedErrorRate s = 0) := by
  refine ⟨?_, ?_, ?_⟩
  · intro s
    simp only [reportResultsChecked, reportResults]
    rw [calculateErrorRateChecked_eq,
      calculateStatisticsChecked_eq _ _ _ _
        (by rw [collectResults_len, collectResults_allRes])]
  · intro s hdeg
    rw [reportResults_snd s]
    unfold calculateStatistics
    rw [if_neg ?_]
    · exact ⟨rfl, rfl, rfl, rfl, rfl, rfl, rfl⟩
    · rcases hdeg with hnil | hzero
      · intro hcon
        exact hcon.2.1 (by rw [hnil]; rfl)
      · intro hcon
        exact hcon.1 hzero
  · intro s h0
    unfold totalCallsOf at h0
    unfold reportedErrorRate calculateErrorRate
    rw [if_neg (by omega)]

/-- C8 witness: on the empty store with unset timestamps, the checked
evaluator agrees with the plain one and every statistic is 0. -/
theorem C8_witness :
    reportResultsChecked emptyState = some (reportResults emptyState) ∧
    ((reportResults emptyState).2.qps = 0 ∧
     (reportResults emptyState).2.avg_latency = 0 ∧
     (reportResults emptyState).2.stdevSq = 0) ∧
    reportedErrorRate emptyState = 0 := by
  refine ⟨C8_safety.1 emptyState, ?_, C8_safety.2.2 emptyState rfl⟩
  have h := C8_safety.2.1 emptyState (Or.inl rfl)
  exact ⟨h.1, h.2.2.1, h.2.2.2.2.2.2⟩

/-- C9 witness: the frame conditions instantiated on scenario A, and output
purity instantiated on two states that differ only in the total_time field
(which the call overwrites before reading). -/
theorem C9_witness :
    (reportResults scenarioA).1.results = scenarioA.results ∧
    (reportResults { scenarioA with total_time := some 99 }).2 =
      (reportResults scenarioA).2 := by
  refine ⟨(C9_amended.1 scenarioA).1, ?_⟩
  exact C9_amended.2 { scenarioA with total_time := some 99 } scenarioA
    rfl rfl rfl rfl

/-- C10 witness: retries = -1 passes construction, an iteration makes no
attempt and records nothing, and two deadline-loop iterations leave the
scenario A store untouched. -/
theorem C10_witness :
    exceptOk (mkLoadTester "http://example.com" 60 10 10 "GET" 10 (-1)
      "fireworksbench_results.log") = true ∧
    runIteration (-1) oracleAllCE = ⟨[], none, 0, 0⟩ ∧
    sendRequests (-1) [oracleAllCE, oracleTimeout] scenarioA = scenarioA := by
  have h := C10_negativeRetries (-1) (by norm_num)
  exact ⟨h.1, h.2.1 oracleAllCE, h.2.2.1 [oracleAllCE, oracleTimeout]
    scenarioA⟩

end Fireworksbench
